import Mathlib

/-
Verification development for the semblance repository.

The Python sources are shallowly embedded as pure Lean functions:

* `asyncio.wait_for` / the repository helper `await_with_timeout`
  (src/semblance/toy_handler.py, lines 19-25) are modelled over an
  `AwaitOutcome` describing what the awaited coroutine did (completed in
  time, timed out, or raised some other exception).  Python exceptions are
  modelled with `Except PyExn`.
* `ToyClientManager.ensure_connected` (lines 154-163), the per-actuator
  retry/reconnect loop `_apply_intensity` (lines 218-273) and the clamping
  dispatcher `_apply_intensity_actuator` (lines 275-282) are translated
  statement by statement; external transport behaviour (whether a command
  or reconnect completes within its timeout) is supplied as oracles, and
  ghost counters record how many dispatches / `ensure_connected` calls the
  loop performed.
* `ToyClientManager.scan_devices` (lines 123-133), the group iteration of
  `apply_intensity` (lines 198-216), the console tail loop
  `TF2ConsoleReader.start_watching` (src/semblance/console_handler.py,
  lines 64-113) and the log-line classifier built on `CONSOLE_CHAT_REX` /
  `CONSOLE_KILL_REX` (src/semblance/game_event_messages.py) are embedded
  further below.

Python floats are modelled as rationals; all the constants involved
(0, 1, 0.3, 1.0, 3.0, 1.7, -0.3) are exactly representable, and the
clamping code uses only comparisons, `min` and `max`, which agree with
their rational counterparts on such values.
-/

namespace Semblance

/-- Python exceptions that the embedded code can raise or catch.
`timeoutError` is `asyncio.TimeoutError` (what `asyncio.wait_for` raises on
timeout), `valueError` and `indexError` are the builtins raised by
`scan_devices` and by indexing an empty list. -/
inductive PyExn where
  | timeoutError
  | valueError
  | indexError
  deriving DecidableEq

/-- Outcome of awaiting one awaitable under `asyncio.wait_for`: the
coroutine either completed (with a value) within the timeout, or the
timeout expired, or the coroutine raised some other exception. -/
inductive AwaitOutcome (α : Type) where
  | completed (v : α)
  | timedOut
  | failed (e : PyExn)
  deriving DecidableEq

/-- asyncio.wait_for: returns the value if the awaitable completed within
the timeout, raises TimeoutError if the timeout expired, propagates any
other exception. -/
def wait_for {α : Type} : AwaitOutcome α → Except PyExn α
  | .completed v => .ok v
  | .timedOut => .error .timeoutError
  | .failed e => .error e

/-- await_with_timeout (toy_handler.py lines 19-25):

    try:
        result = await wait_for(awaitable_element, timeout)
        return result
    except TimeoutError as e:
        logger.debug(...)
        return None

The TimeoutError is caught here and converted into a `None` return; every
other exception propagates.  Consequently this helper never raises
TimeoutError to its caller. -/
def await_with_timeout {α : Type} (aw : AwaitOutcome α) : Except PyExn (Option α) :=
  match wait_for aw with
  | .ok v => .ok (some v)
  | .error .timeoutError => .ok none
  | .error e => .error e

/-- Observable result of one `ensure_connected` call: the boolean the
method returned, whether it issued a `client.reconnect()` attempt, and the
connection state of the session afterwards. -/
structure EnsureResult where
  returned : Bool
  reconnectIssued : Bool
  connectedAfter : Bool
  deriving DecidableEq

/-- Transport model for `client.reconnect()`: a reconnect that completed
within the 1.0 second bound restores the connection; one that timed out or
raised leaves the session disconnected. -/
def reconnectRestores : AwaitOutcome Unit → Bool
  | .completed _ => true
  | .timedOut => false
  | .failed _ => false

/-- ensure_connected (toy_handler.py lines 154-163):

    if not self.client.connected:
        logger.warning(...)
        try:
            await await_with_timeout(self.client.reconnect(), 1.0, "Client Reconnect")
            return True
        except TimeoutError:
            logger.error("Client failed to reconnect (timed out).")
            return False
    return True

`connected` is the state the client reports on entry; `recon` is what the
`client.reconnect()` awaitable does.  Note that the `except TimeoutError`
branch is reproduced faithfully below even though `await_with_timeout`
never raises TimeoutError. -/
def ensure_connected (connected : Bool) (recon : AwaitOutcome Unit) :
    Except PyExn EnsureResult :=
  if !connected then
    match await_with_timeout recon with
    | .ok _ => .ok ⟨true, true, reconnectRestores recon⟩
    | .error .timeoutError => .ok ⟨false, true, reconnectRestores recon⟩
    | .error e => .error e
  else .ok ⟨true, false, connected⟩

/-- Data observable from one call of `_apply_intensity_actuator`: the value
passed to `actuator.command(...)` and whether the out-of-range warning was
logged. -/
structure NormalDispatch where
  transmitted : ℚ
  warned : Bool
  deriving DecidableEq

/-- _apply_intensity_actuator (toy_handler.py lines 275-282):

    _inten = intensity_value
    if not 0.0 <= _inten <= 1.0:
        logger.warning("given intensity value is out of range, clamping!")
        _inten = max(0.0, min(1.0, _inten))
    await await_with_timeout(actuator.command(_inten), 0.3)

`cmd` is what the `actuator.command(_inten)` awaitable does.  The command
is issued with the (possibly clamped) value regardless of whether the
await then times out; a timeout is swallowed by `await_with_timeout`, so
this function raises only non-Timeout exceptions of the command. -/
def _apply_intensity_actuator (intensity_value : ℚ) (cmd : AwaitOutcome Unit) :
    Except PyExn NormalDispatch :=
  let inten : ℚ :=
    if 0 ≤ intensity_value ∧ intensity_value ≤ 1 then intensity_value
    else max 0 (min 1 intensity_value)
  let w : Bool := !(decide (0 ≤ intensity_value ∧ intensity_value ≤ 1))
  match await_with_timeout cmd with
  | .ok _ => .ok ⟨inten, w⟩
  | .error e => .error e

/-- Ghost observations threaded through the `_apply_intensity` loop: how
many times `actuator.command` was issued, how many `ensure_connected`
calls were made, and the current connection state of the session. -/
structure DispatchObs where
  dispatchCount : Nat
  reconnectCalls : Nat
  connected : Bool
  deriving DecidableEq

/-- The bounded reconnect sub-loop of `_apply_intensity`
(toy_handler.py lines 252-262):

    _reconnect_attempts = 1
    _max_reconnect_retries = 3
    _success = False
    while _reconnect_attempts <= _max_reconnect_retries:
        _res = await self.ensure_connected()
        if _res:
            _success = True
            break
        else:
            _reconnect_attempts += 1

`recon n` is what the n-th `client.reconnect()` awaitable of the whole
per-actuator call does.  Returns the final `_success` together with the
updated observations. -/
def reconnect_loop (recon : Nat → AwaitOutcome Unit) (attempt : Nat) (st : DispatchObs) :
    Except PyExn (Bool × DispatchObs) :=
  if h : attempt ≤ 3 then
    match ensure_connected st.connected (recon st.reconnectCalls) with
    | .error e => .error e
    | .ok r =>
      let st' : DispatchObs := ⟨st.dispatchCount, st.reconnectCalls + 1, r.connectedAfter⟩
      if r.returned then .ok (true, st')
      else reconnect_loop recon (attempt + 1) st'
  else .ok (false, st)
termination_by 4 - attempt
decreasing_by omega

/-- The outer retry loop of `_apply_intensity` (toy_handler.py lines
234-273), for a Normal actuator:

    while _retry_attempt <= _max_retries:          # _max_retries = 3
        try:
            await self._apply_intensity_actuator(actuator, *args)
            return True
        except TimeoutError:
            ... reconnect sub-loop ...
            if not _success:
                return False
            if _success and _retry_attempt == _max_retries and not _extra_go_tried:
                _extra_go_tried = True
            else:
                _retry_attempt += 1
    return False

`cmd n` is what the n-th `actuator.command` awaitable does, `recon n` the
n-th reconnect awaitable. -/
def apply_intensity_loop (iv : ℚ) (cmd recon : Nat → AwaitOutcome Unit)
    (retry_attempt : Nat) (extra_go_tried : Bool) (st : DispatchObs) :
    Except PyExn (Bool × DispatchObs) :=
  if h : retry_attempt ≤ 3 then
    let stD : DispatchObs := ⟨st.dispatchCount + 1, st.reconnectCalls, st.connected⟩
    match _apply_intensity_actuator iv (cmd st.dispatchCount) with
    | .ok _ => .ok (true, stD)
    | .error .timeoutError =>
      match reconnect_loop recon 1 stD with
      | .error e => .error e
      | .ok (success, st2) =>
        if success = false then .ok (false, st2)
        else if hx : retry_attempt = 3 ∧ extra_go_tried = false then
          apply_intensity_loop iv cmd recon retry_attempt true st2
        else
          apply_intensity_loop iv cmd recon (retry_attempt + 1) extra_go_tried st2
    | .error e => .error e
  else .ok (false, st)
termination_by (4 - retry_attempt) + (if extra_go_tried then 0 else 1)
decreasing_by
· simp only [hx.2, if_true, Bool.false_eq_true, if_false]
  omega
· cases extra_go_tried <;> simp <;> omega

/-- _apply_intensity (toy_handler.py lines 218-273) applied to a Normal
actuator: the loop starts with `_retry_attempt = 1` and
`_extra_go_tried = False`; `connected0` is the connection state the client
reports initially. -/
def _apply_intensity (iv : ℚ) (cmd recon : Nat → AwaitOutcome Unit) (connected0 : Bool) :
    Except PyExn (Bool × DispatchObs) :=
  apply_intensity_loop iv cmd recon 1 false ⟨0, 0, connected0⟩

/-- One group loop of `apply_intensity` (toy_handler.py lines 199-216):

    for act in device.actuators:
        _val = await self._apply_intensity(act, *regular)
        if not _val:
            logger.error(...)
            break

The input list holds, in enumeration order, the boolean result that
`_apply_intensity` produces for each actuator of the group; the output is
the list of results of the attempts actually made, so iteration stops
right after the first failing actuator. -/
def attemptGroup : List Bool → List Bool
  | [] => []
  | r :: rs => if r then r :: attemptGroup rs else [r]

/-- The three role-partitioned actuator lists of the selected device, each
entry being the boolean result `_apply_intensity` would produce for that
actuator (the per-actuator outcomes are parameters of `apply_intensity`,
which only consumes their truth values). -/
structure DeviceActs where
  actuators : List Bool
  rotatory_actuators : List Bool
  linear_actuators : List Bool
  deriving DecidableEq

/-- Role tag recording which group an attempt belonged to. -/
inductive Role where
  | regular
  | rotary
  | linear
  deriving DecidableEq

/-- apply_intensity (toy_handler.py lines 175-216): the three `if` blocks
run in the fixed textual order regular, rotary, linear, each iterating its
own actuator list with `attemptGroup`; a `break` in one block does not
affect the other blocks.  The flags model the truthiness of the `regular`,
`rotary` and `linear` argument tuples.  The result is the ordered trace of
per-actuator attempts actually made, tagged with the group they belong
to. -/
def apply_intensity_attempts (d : DeviceActs) (regular rotary linear : Bool) :
    List (Role × Bool) :=
  (if regular then (attemptGroup d.actuators).map (fun b => (Role.regular, b)) else [])
    ++ (if rotary then (attemptGroup d.rotatory_actuators).map (fun b => (Role.rotary, b)) else [])
    ++ (if linear then (attemptGroup d.linear_actuators).map (fun b => (Role.linear, b)) else [])

/-- Observable steps of `scan_devices`. -/
inductive ScanEvent where
  | startScanning
  | sleepSettle (secs : ℚ)
  | stopScanning
  deriving DecidableEq

/-- Result of a `scan_devices` call: its outcome (normal return or raised
exception), the ordered transport events it performed, and the value of
`self.target_device` after the call. -/
structure ScanResult where
  outcome : Except PyExn Unit
  events : List ScanEvent
  target_device : Option Nat

/-- scan_devices (toy_handler.py lines 123-133):

    if self.client is None or not self.client.connected:
        logger.error(...)
        raise ValueError("Client not in valid state for scanning.")
    logger.info(...)
    await self.client.start_scanning()
    await sleep(3.0)
    await self.client.stop_scanning()
    logger.success(...)
    self.target_device = list(self.client.devices.values())[0]

Discovered devices are modelled as `Nat` handles; `found` is
`list(self.client.devices.values())` in insertion order.  Indexing `[0]`
on an empty list raises IndexError, after discovery has been stopped and
before `target_device` is assigned. -/
def scan_devices (clientIsNone : Bool) (connected : Bool) (prevTarget : Option Nat)
    (found : List Nat) : ScanResult :=
  if clientIsNone || !connected then
    { outcome := .error .valueError, events := [], target_device := prevTarget }
  else
    match found with
    | [] =>
      { outcome := .error .indexError
        events := [.startScanning, .sleepSettle 3, .stopScanning]
        target_device := prevTarget }
    | d :: _ =>
      { outcome := .ok ()
        events := [.startScanning, .sleepSettle 3, .stopScanning]
        target_device := some d }

/-- Control messages of src/semblance/control_messages.py as consumed by
`TF2ConsoleReader.start_watching`: `kill` is a KillMessage, `dummy` a
DummyMessage and `other` any other AbstractControlMessage. -/
inductive CtlMsg where
  | kill
  | dummy
  | other
  deriving DecidableEq

/-- What one iteration of the `while True:` cycle of `start_watching`
(console_handler.py lines 72-110) does: either some statement inside the
cycle (stat, read, queue put, regex work, ...) raises an exception, or the
cycle runs to completion having dequeued the given control message, if
any. -/
inductive CycleOutcome where
  | raises
  | runs (ctl : Option CtlMsg)
  deriving DecidableEq

/-- How the watching loop ended. -/
inductive WatchExit where
  | killed
  | raised
  deriving DecidableEq

/-- Result of `start_watching` once its loop has ended: how it ended and
whether `_file_handle.close()` was executed. -/
structure WatchResult where
  exit : WatchExit
  fileClosed : Bool
  deriving DecidableEq

/-- The loop of start_watching (console_handler.py lines 72-113).  The
function opens the file handle before the loop; `_file_handle.close()` is
the first statement after the loop, and there is no try/finally around the
loop, so the close runs exactly when the loop ends via the KillMessage
`break`; an exception raised inside a cycle propagates out of
`start_watching` without reaching the close.  A schedule exhausted without
kill or exception returns `none`: the loop is still running. -/
def watch_loop : List CycleOutcome → Option WatchResult
  | [] => none
  | .raises :: _ => some ⟨.raised, false⟩
  | .runs ctl :: rest =>
    match ctl with
    | some .kill => some ⟨.killed, true⟩
    | _ => watch_loop rest

/-- Character classes occurring in CONSOLE_KILL_REX and CONSOLE_CHAT_REX
(game_event_messages.py lines 9-11): the dot, the class backslash-s, and
literal characters. -/
inductive CharCls where
  | anyCh
  | wsCh
  | litCh (c : Char)

/-- Python semantics of the character classes: the dot matches anything
except a newline; backslash-s matches the ASCII whitespace characters
(the lines under analysis contain none of the rarer unicode spaces). -/
def CharCls.matchesCh : CharCls → Char → Bool
  | .anyCh, c => c != '\n'
  | .wsCh, c =>
    c == ' ' || c == '\t' || c == '\n' || c == '\r' || c == '\x0b' || c == '\x0c'
  | .litCh a, c => c == a

/-- Regular-expression abstract syntax, sufficient for the two patterns of
game_event_messages.py: single characters, greedy star over a character
class, greedy question mark, sequencing, numbered capture groups, and the
end anchor. -/
inductive RE where
  | eps
  | one (cls : CharCls)
  | star (cls : CharCls)
  | quest (a : RE)
  | seq (a b : RE)
  | group (n : Nat) (a : RE)
  | eol

/-- Literal text: a sequence of literal single characters. -/
def reStr : List Char → RE
  | [] => .eps
  | c :: cs => .seq (.one (.litCh c)) (reStr cs)

/-- Right-nested sequence of a list of regular expressions. -/
def seqs : List RE → RE
  | [] => .eps
  | [r] => r
  | r :: rs => .seq r (seqs rs)

/-- Captured group spans: group number together with start and stop
offsets into the subject line (latest entry first). -/
def Caps : Type := List (Nat × Nat × Nat)

/-- Span recorded for group `n`, if the group participated in the match. -/
def getCap (caps : Caps) (n : Nat) : Option (Nat × Nat) :=
  match caps with
  | [] => none
  | (m, i, j) :: rest => if m = n then some (i, j) else getCap rest n

/-- Continuations of the backtracking matcher: remaining subject, current
absolute offset, captures so far. -/
def ReCont : Type := List Char → Nat → Caps → Option Caps

/-- Length of the maximal prefix of the subject matching the class. -/
def maxRun (cls : CharCls) : List Char → Nat
  | [] => 0
  | c :: cs => if cls.matchesCh c then maxRun cls cs + 1 else 0

/-- Greedy choice of how many characters a star consumes: try `n`
characters first, then `n - 1`, down to zero — the preference order of a
greedy quantifier in a backtracking engine such as Python's. -/
def tryLengths (s : List Char) (i : Nat) (caps : Caps) (k : ReCont) : Nat → Option Caps
  | 0 => k s i caps
  | n + 1 =>
    match k (s.drop (n + 1)) (i + (n + 1)) caps with
    | some r => some r
    | none => tryLengths s i caps k n

/-- Backtracking matcher with Python's leftmost-preference semantics:
alternatives of a question mark are tried with the subexpression first,
stars longest first, and the first overall success wins.  Capture spans
are recorded when the group's subexpression and the rest of the pattern
both succeed. -/
def reMatch : RE → List Char → Nat → Caps → ReCont → Option Caps
  | .eps, s, i, caps, k => k s i caps
  | .one cls, s, i, caps, k =>
    match s with
    | [] => none
    | c :: rest => if cls.matchesCh c then k rest (i + 1) caps else none
  | .star cls, s, i, caps, k => tryLengths s i caps k (maxRun cls s)
  | .quest a, s, i, caps, k =>
    match reMatch a s i caps k with
    | some r => some r
    | none => k s i caps
  | .seq a b, s, i, caps, k =>
    reMatch a s i caps (fun s2 i2 caps2 => reMatch b s2 i2 caps2 k)
  | .group n a, s, i, caps, k =>
    reMatch a s i caps (fun s2 i2 caps2 => k s2 i2 ((n, i, i2) :: caps2))
  | .eol, s, i, caps, k => if s.isEmpty then k s i caps else none

/-- re.match anchored at the start of the line: both repository patterns
carry their own end anchor, encoded as a trailing `.eol`. -/
def reFullMatch (r : RE) (line : List Char) : Option Caps :=
  reMatch r line 0 [] (fun _ _ caps => some caps)

/-- Text of the span captured by group `n`, if any. -/
def capVal (line : List Char) (caps : Caps) (n : Nat) : Option (List Char) :=
  (getCap caps n).map (fun p => (line.drop p.1).take (p.2 - p.1))

/-- CONSOLE_KILL_REX (game_event_messages.py line 9), capture groups
killer, victim, weapon, crit:
caret (.*) bs-s killed bs-s (.*) bs-s with bs-s (.*) bs-dot
( bs-s bs-lparen crit bs-rparen )? dollar. -/
def CONSOLE_KILL_REX : RE :=
  seqs [ .group 1 (.star .anyCh), .one .wsCh, reStr ("killed".toList), .one .wsCh,
         .group 2 (.star .anyCh), .one .wsCh, reStr ("with".toList), .one .wsCh,
         .group 3 (.star .anyCh), .one (.litCh '.'),
         .quest (.group 4 (.seq (.one .wsCh) (reStr ("(crit)".toList)))), .eol ]

/-- CONSOLE_CHAT_REX (game_event_messages.py line 11), capture groups
dead, team, author, message:
caret ( star-DEAD-star )? bs-s-star ( lparen TEAM rparen )? bs-s-star (.*)
bs-s? colon bs-s-with-count-1-2 (.*) dollar. -/
def CONSOLE_CHAT_REX : RE :=
  seqs [ .quest (.group 1 (reStr ("*DEAD*".toList))), .star .wsCh,
         .quest (.group 2 (reStr ("(TEAM)".toList))), .star .wsCh,
         .group 3 (.star .anyCh), .quest (.one .wsCh), .one (.litCh ':'),
         .one .wsCh, .quest (.one .wsCh), .group 4 (.star .anyCh), .eol ]

/-- The typed events produced by the classifier in `start_watching`
(console_handler.py lines 83-90): a ConsoleChatMessage, a
ConsoleKillMessage, or the generic ConsoleEventMessage for unmatched
lines. -/
inductive GameEventMessage where
  | consoleEvent (value : List Char)
  | killMsg (killer victim weapon : List Char) (crit : Bool)
  | chatMsg (author content : List Char) (team dead : Bool)
  deriving DecidableEq

/-- ConsoleKillMessage.__init__ (game_event_messages.py lines 42-48):
killer, victim and weapon are match groups 0-2, crit is whether group 3
participated. -/
def consoleKillMessage (line : List Char) (caps : Caps) : GameEventMessage :=
  .killMsg ((capVal line caps 1).getD []) ((capVal line caps 2).getD [])
    ((capVal line caps 3).getD []) ((getCap caps 4).isSome)

/-- ConsoleChatMessage.__init__ (game_event_messages.py lines 61-67):
dead and team are whether groups 0 and 1 participated, author and content
are match groups 2 and 3. -/
def consoleChatMessage (line : List Char) (caps : Caps) : GameEventMessage :=
  .chatMsg ((capVal line caps 3).getD []) ((capVal line caps 4).getD [])
    ((getCap caps 2).isSome) ((getCap caps 1).isSome)

/-- The per-line classification of `start_watching` (console_handler.py
lines 83-90): the chat pattern is consulted first, then the kill pattern,
and an unmatched line becomes a plain ConsoleEventMessage. -/
def classify_line (line : List Char) : GameEventMessage :=
  match reFullMatch CONSOLE_CHAT_REX line with
  | some caps => consoleChatMessage line caps
  | none =>
    match reFullMatch CONSOLE_KILL_REX line with
    | some caps => consoleKillMessage line caps
    | none => .consoleEvent line

/-- Helper: the very first dispatch of `_apply_intensity` decides the whole
call.  Because `await_with_timeout` converts a command timeout into a
`None` return, `_apply_intensity_actuator` never raises TimeoutError, so
the `except TimeoutError` handler of the loop — and with it the reconnect
sub-loop, the retry counter and the extra-go flag — is unreachable: the
call returns True after exactly one dispatch (or propagates a non-Timeout
exception of the first command). -/
theorem apply_intensity_first_dispatch (iv : ℚ) (cmd recon : Nat → AwaitOutcome Unit)
    (c : Bool) :
    _apply_intensity iv cmd recon c
      = match await_with_timeout (cmd 0) with
        | .ok _ => .ok (true, ⟨1, 0, c⟩)
        | .error e => .error e := by
  unfold _apply_intensity apply_intensity_loop
  cases hc : cmd 0 with
  | completed v => simp [hc, _apply_intensity_actuator, await_with_timeout, wait_for]
  | timedOut => simp [hc, _apply_intensity_actuator, await_with_timeout, wait_for]
  | failed e =>
    cases e <;> simp [hc, _apply_intensity_actuator, await_with_timeout, wait_for]

/-- Claim C1: the claim says a per-actuator command that times out on
every attempt is issued at most 3 times and the call ultimately returns
failure (False).  On the code, a timed-out dispatch is swallowed inside
`await_with_timeout`, so the retry machinery never runs: with every
`actuator.command` timing out (and reconnects that would succeed), the
call issues the command exactly once, makes zero `ensure_connected`
calls, and returns success (True) — contradicting the claimed failure
return and the method's own docstring. -/
theorem apply_intensity_all_timeouts_returns_true :
    _apply_intensity (1 / 2) (fun _ => .timedOut) (fun _ => .completed ()) true
      = .ok (true, ⟨1, 0, true⟩) := by
  rw [apply_intensity_first_dispatch]
  rfl

/-- Claim C2: the claim describes the one-shot extra ungated dispatch
granted when reconnection succeeds on the final retry attempt.  On the
code that scenario is unreachable: whenever `_apply_intensity` returns at
all, it returns True having issued exactly one dispatch and zero
`ensure_connected` calls, for every command/reconnect behaviour — the
retry counter never advances, so no extra attempt can ever be granted. -/
theorem apply_intensity_no_extra_attempt (iv : ℚ) (cmd recon : Nat → AwaitOutcome Unit)
    (c b : Bool) (st : DispatchObs)
    (h : _apply_intensity iv cmd recon c = .ok (b, st)) :
    b = true ∧ st.dispatchCount = 1 ∧ st.reconnectCalls = 0 := by
  rw [apply_intensity_first_dispatch] at h
  cases hc : await_with_timeout (cmd 0) with
  | ok v =>
    rw [hc] at h
    simp only [Except.ok.injEq, Prod.mk.injEq] at h
    obtain ⟨hb, hst⟩ := h
    subst hst
    exact ⟨hb.symm, rfl, rfl⟩
  | error e =>
    rw [hc] at h
    simp at h

/-- Witness for C2's theorem at a concrete run: intensity 3/4, every
command timing out, every reconnect completing, initially disconnected. -/
theorem apply_intensity_no_extra_attempt_witness :
    true = true ∧ (⟨1, 0, false⟩ : DispatchObs).dispatchCount = 1
      ∧ (⟨1, 0, false⟩ : DispatchObs).reconnectCalls = 0 :=
  apply_intensity_no_extra_attempt (3 / 4) (fun _ => .timedOut)
    (fun _ => .completed ()) false true ⟨1, 0, false⟩
    (by rw [apply_intensity_first_dispatch]; rfl)

/-- Claim C3: the claim says `ensure_connected` returns true if and only
if the session is actually connected after the bounded reconnect, and
false when the reconnect does not restore the connection.  On the code,
when the client is disconnected and `client.reconnect()` times out, the
TimeoutError is swallowed inside `await_with_timeout`, so the
`except TimeoutError: return False` branch (toy_handler.py lines 160-162)
is unreachable and the method returns True while the session is still
disconnected. -/
theorem ensure_connected_swallows_reconnect_timeout :
    ensure_connected false .timedOut = .ok ⟨true, true, false⟩ := rfl

/-- Claim C4: for every intensity applied to a Normal actuator, the value
transmitted in `actuator.command` is the input clamped into the unit
interval — inputs above 1 are sent as 1, inputs below 0 as 0, in-range
inputs pass through — and the warning is logged exactly in the
out-of-range case. -/
theorem apply_intensity_actuator_clamps (i : ℚ) (o : AwaitOutcome Unit) (d : NormalDispatch)
    (h : _apply_intensity_actuator i o = .ok d) :
    (1 < i → d.transmitted = 1) ∧ (i < 0 → d.transmitted = 0)
    ∧ (0 ≤ i → i ≤ 1 → d.transmitted = i)
    ∧ (d.warned = true ↔ (i < 0 ∨ 1 < i)) := by
  have hd : d = ⟨if 0 ≤ i ∧ i ≤ 1 then i else max 0 (min 1 i),
      !(decide (0 ≤ i ∧ i ≤ 1))⟩ := by
    cases o with
    | completed v =>
      simp only [_apply_intensity_actuator, await_with_timeout, wait_for,
        Except.ok.injEq] at h
      exact h.symm
    | timedOut =>
      simp only [_apply_intensity_actuator, await_with_timeout, wait_for,
        Except.ok.injEq] at h
      exact h.symm
    | failed e =>
      cases e with
      | timeoutError =>
        simp only [_apply_intensity_actuator, await_with_timeout, wait_for,
          Except.ok.injEq] at h
        exact h.symm
      | valueError =>
        simp only [_apply_intensity_actuator, await_with_timeout, wait_for] at h
        cases h
      | indexError =>
        simp only [_apply_intensity_actuator, await_with_timeout, wait_for] at h
        cases h
  subst hd
  refine ⟨?_, ?_, ?_, ?_⟩
  · intro h1
    show (if 0 ≤ i ∧ i ≤ 1 then i else max 0 (min 1 i)) = 1
    rw [if_neg (by rintro ⟨-, h2⟩; linarith)]
    rw [min_eq_left (le_of_lt h1)]
    exact max_eq_right (by norm_num)
  · intro h1
    show (if 0 ≤ i ∧ i ≤ 1 then i else max 0 (min 1 i)) = 0
    rw [if_neg (by rintro ⟨h2, -⟩; linarith)]
    rw [min_eq_right (by linarith : i ≤ 1)]
    exact max_eq_left (by linarith)
  · intro h0 h1
    show (if 0 ≤ i ∧ i ≤ 1 then i else max 0 (min 1 i)) = i
    rw [if_pos ⟨h0, h1⟩]
  · show (!(decide (0 ≤ i ∧ i ≤ 1))) = true ↔ (i < 0 ∨ 1 < i)
    simp only [Bool.not_eq_true', decide_eq_false_iff_not, not_and_or, not_le]

/-- Witness for C4's theorem at the spec's own example 1.7: the input is
above 1 and the transmitted value is 1 (with the warning logged). -/
theorem apply_intensity_actuator_clamps_witness :
    (1 : ℚ) < 17 / 10 ∧ NormalDispatch.transmitted ⟨1, true⟩ = 1 := by
  have hcond : ¬ ((0 : ℚ) ≤ 17 / 10 ∧ (17 : ℚ) / 10 ≤ 1) := by norm_num
  have hok : _apply_intensity_actuator (17 / 10) (.completed ()) = .ok ⟨1, true⟩ := by
    simp only [_apply_intensity_actuator, await_with_timeout, wait_for, if_neg hcond,
      decide_eq_false hcond, Bool.not_false, Except.ok.injEq, NormalDispatch.mk.injEq,
      and_true]
    rw [min_eq_left (by norm_num)]
    exact max_eq_right (by norm_num)
  exact ⟨by norm_num,
    (apply_intensity_actuator_clamps (17 / 10) (.completed ()) ⟨1, true⟩ hok).1
      (by norm_num)⟩

/-- Helper: the attempts a group loop makes are exactly the successful
prefix followed by the first failing actuator, if there is one. -/
theorem attemptGroup_eq (a : List Bool) :
    attemptGroup a = a.takeWhile id ++ if false ∈ a then [false] else [] := by
  induction a with
  | nil => simp [attemptGroup]
  | cons r rs ih =>
    cases r
    · simp [attemptGroup]
    · simp [attemptGroup, ih]

/-- Claim C5: the groups supplied to `apply_intensity` are attempted
independently in the fixed order regular, rotary, linear — the attempt
trace decomposes into the three per-group traces, each depending only on
its own group's actuator results — and within one group a failure stops
the iteration right after the failing actuator, leaving the other groups
unaffected. -/
theorem apply_intensity_group_isolation (a ra la : List Bool) (fr fro fl : Bool) :
    apply_intensity_attempts ⟨a, ra, la⟩ fr fro fl
      = apply_intensity_attempts ⟨a, [], []⟩ fr false false
        ++ apply_intensity_attempts ⟨[], ra, []⟩ false fro false
        ++ apply_intensity_attempts ⟨[], [], la⟩ false false fl
    ∧ attemptGroup a = a.takeWhile id ++ if false ∈ a then [false] else [] := by
  refine ⟨?_, attemptGroup_eq a⟩
  simp [apply_intensity_attempts]

/-- Claim C6: `ensure_connected` called while the client reports a
connected state issues no reconnect, returns true, and leaves the session
state unchanged; hence any sequence of repeated calls in the connected
state is a no-op each time. -/
theorem ensure_connected_connected_noop (recon : AwaitOutcome Unit)
    (recons : List (AwaitOutcome Unit)) :
    ensure_connected true recon = .ok ⟨true, false, true⟩
    ∧ recons.map (fun r => ensure_connected true r)
        = recons.map (fun _ => .ok ⟨true, false, true⟩) := by
  refine ⟨rfl, ?_⟩
  induction recons with
  | nil => rfl
  | cons r rs ih =>
    simp only [List.map_cons, ih,
      show ensure_connected true r = .ok ⟨true, false, true⟩ from rfl]

/-- Claim C7, counterexample: the chat line of the claim does not classify
with author "PlayerA" — the greedy dot-star of CONSOLE_CHAT_REX absorbs
the space before the colon (the optional backslash-s matches empty), so
the captured author keeps a trailing space. -/
theorem classify_chat_author_not_plain :
    classify_line ("PlayerA : gg wp".toList)
      ≠ .chatMsg ("PlayerA".toList) ("gg wp".toList) false false := by
  decide

/-- Claim C7, amended: the chat line classifies as a chat event with
author "PlayerA " (trailing space kept), content "gg wp", team and dead
false; the kill line classifies exactly as claimed; and on a line matched
by both patterns the chat pattern, consulted first, wins. -/
theorem classify_line_examples :
    classify_line ("PlayerA : gg wp".toList)
      = .chatMsg ("PlayerA ".toList) ("gg wp".toList) false false
    ∧ classify_line ("PlayerA killed PlayerB with shotgun. (crit)".toList)
      = .killMsg ("PlayerA".toList) ("PlayerB".toList) ("shotgun".toList) true
    ∧ (reFullMatch CONSOLE_KILL_REX ("A killed B with c : d.".toList)).isSome = true
    ∧ classify_line ("A killed B with c : d.".toList)
      = .chatMsg ("A killed B with c ".toList) ("d.".toList) false false := by
  exact ⟨by decide, by decide, by decide, by decide⟩

/-- Claim C8: calling `scan_devices` with a null or unconnected client
raises ValueError without performing any discovery event and without
touching `target_device`; when connected it performs start-scan, the 3
second settle wait, stop-scan, and (when at least one device was
discovered) sets `target_device` to the first discovered device. -/
theorem scan_devices_requires_connected (cn conn : Bool) (prev : Option Nat)
    (found : List Nat) :
    (cn = true ∨ conn = false →
      scan_devices cn conn prev found = ⟨.error .valueError, [], prev⟩)
    ∧ (cn = false → conn = true →
      (scan_devices cn conn prev found).events
        = [.startScanning, .sleepSettle 3, .stopScanning])
    ∧ (cn = false → conn = true → ∀ d rest, found = d :: rest →
      scan_devices cn conn prev found
        = ⟨.ok (), [.startScanning, .sleepSettle 3, .stopScanning], some d⟩) := by
  refine ⟨?_, ?_, ?_⟩
  · rintro (rfl | rfl) <;> cases found <;> simp [scan_devices]
  · rintro rfl rfl
    cases found <;> simp [scan_devices]
  · rintro rfl rfl d rest rfl
    simp [scan_devices]

/-- Witness for C8's theorem: a disconnected call and a connected call
that discovered one device. -/
theorem scan_devices_requires_connected_witness :
    scan_devices true true (some 9) [] = ⟨.error .valueError, [], some 9⟩
    ∧ scan_devices false true none [5]
        = ⟨.ok (), [.startScanning, .sleepSettle 3, .stopScanning], some 5⟩ :=
  ⟨(scan_devices_requires_connected true true (some 9) []).1 (Or.inl rfl),
   (scan_devices_requires_connected false true none [5]).2.2 rfl rfl 5 [] rfl⟩

/-- Claim C9, counterexample: it is not the case that the watching loop
closes its file handle however it ends — a cycle that raises terminates
the loop with the handle still open, because `start_watching` has no
try/finally and `_file_handle.close()` sits after the loop, reachable
only through the KillMessage break. -/
theorem start_watching_no_guaranteed_release :
    ¬ (∀ sched r, watch_loop sched = some r → r.fileClosed = true) := by
  intro hAll
  exact absurd (hAll [CycleOutcome.raises] ⟨.raised, false⟩ rfl) (by decide)

/-- Claim C9, amended: the file handle is closed exactly when the loop
ends through the Kill control-message break; when the loop is ended by an
exception raised inside a cycle, the exception propagates out of
`start_watching` and the handle is not closed. -/
theorem watch_loop_closes_iff_killed (sched : List CycleOutcome) (r : WatchResult)
    (h : watch_loop sched = some r) :
    (r.exit = .killed → r.fileClosed = true)
    ∧ (r.exit = .raised → r.fileClosed = false) := by
  induction sched with
  | nil => simp [watch_loop] at h
  | cons c rest ih =>
    cases c with
    | raises =>
      simp only [watch_loop, Option.some.injEq] at h
      subst h
      exact ⟨fun he => (nomatch he), fun _ => rfl⟩
    | runs ctl =>
      match ctl with
      | none => exact ih (by simpa [watch_loop] using h)
      | some .dummy => exact ih (by simpa [watch_loop] using h)
      | some .other => exact ih (by simpa [watch_loop] using h)
      | some .kill =>
        simp only [watch_loop, Option.some.injEq] at h
        subst h
        exact ⟨fun _ => rfl, fun he => nomatch he⟩

/-- Witness for the amended C9 theorem: a schedule whose second cycle
receives the Kill message ends the loop with the handle closed. -/
theorem watch_loop_closes_iff_killed_witness :
    ((⟨WatchExit.killed, true⟩ : WatchResult).exit = .killed →
      (⟨WatchExit.killed, true⟩ : WatchResult).fileClosed = true)
    ∧ ((⟨WatchExit.killed, true⟩ : WatchResult).exit = .raised →
      (⟨WatchExit.killed, true⟩ : WatchResult).fileClosed = false) :=
  watch_loop_closes_iff_killed [CycleOutcome.runs none, CycleOutcome.runs (some .kill)]
    ⟨.killed, true⟩ rfl

/-- Claim C10: a connected scan that discovers zero devices stops
discovery, then raises IndexError with `target_device` keeping its prior
value; and `scan_devices` returns normally only when at least one device
was discovered, in which case the selected target is the first device of
that scan. -/
theorem scan_devices_empty_scan (prev : Option Nat) (found : List Nat) :
    scan_devices false true prev []
      = ⟨.error .indexError, [.startScanning, .sleepSettle 3, .stopScanning], prev⟩
    ∧ ((scan_devices false true prev found).outcome = .ok () →
        found ≠ [] ∧ (scan_devices false true prev found).target_device = found.head?) := by
  constructor
  · rfl
  · cases found with
    | nil => intro hk; simp [scan_devices] at hk
    | cons d rest => intro hk; simp [scan_devices]

/-- Witness for C10's theorem: an empty scan keeps the prior target and
raises IndexError; a scan that found devices selects the first one. -/
theorem scan_devices_empty_scan_witness :
    scan_devices false true (some 7) []
      = ⟨.error .indexError, [.startScanning, .sleepSettle 3, .stopScanning], some 7⟩
    ∧ ([3, 4] ≠ ([] : List Nat)
       ∧ (scan_devices false true (some 7) [3, 4]).target_device = [3, 4].head?) :=
  ⟨(scan_devices_empty_scan (some 7) []).1,
   (scan_devices_empty_scan (some 7) [3, 4]).2 rfl⟩

end Semblance
